import Mathlib

/-!
Verification of the RAG-API service (`src/app.py`) against its specification.

The program is two HTTP handlers, `query` (POST /query) and `add_knowledge`
(POST /add), orchestrating two external collaborators: a Chroma vector-store
collection and an Ollama generation client.  We embed the two handlers as
pure Lean functions over an explicit collection state, parameterised by the
opaque collaborator behaviours (the similarity search, the generation call
and the identifier generator), and record the handler's observable effects
(collection operations issued, diagnostic log lines printed, generation
requests sent) in an outcome record.  Python exceptions are modelled by
`Except`.
-/

namespace RagApi

/-- A fault (Python exception).  `indexError` is the `IndexError` raised by
out-of-range list subscription; `collab msg` is an arbitrary fault raised by a
collaborator, carrying its description string (`str(e)`). -/
inductive PyFault
  | indexError
  | collab (msg : String)
  deriving DecidableEq, Repr

/-- `str(e)` for a fault: the description string placed in the error
envelope by the add handler. -/
def faultMessage : PyFault → String
  | .indexError => "list index out of range"
  | .collab msg => msg

/-- One request sent to the Ollama generation collaborator:
`ollama_client.generate(model=..., prompt=...)` (app.py lines 18-21). -/
structure GenRequest where
  model : String
  prompt : String
  deriving DecidableEq, Repr

/-- An operation issued against the Chroma collection. -/
inductive StoreOp
  | queryOp (queryTexts : List String) (nResults : Nat)
  | addOp (documents : List String) (ids : List String)
  deriving DecidableEq, Repr

/-- A diagnostic line printed by the query handler (app.py lines 11, 13, 16). -/
inductive LogEntry
  | receivedQuery (q : String)
  | chromaResults (documents : List (List String))
  | contextPassed (context : String)
  deriving DecidableEq, Repr

/-- The Chroma collection state: the stored `(id, document)` pairs in
insertion order. -/
abbrev Store := List (String × String)

/-- The observable outcome of one handler run: the returned value or the
propagated fault, the collection state afterwards, the collection operations
issued, the diagnostic log, and the generation requests sent. -/
structure Outcome (α : Type) where
  result : Except PyFault α
  store : Store
  ops : List StoreOp
  log : List LogEntry
  genCalls : List GenRequest
  deriving Repr

/-- Python list subscription `xs[i]`: raises `IndexError` when out of range. -/
def pyGet (xs : List α) (i : Nat) : Except PyFault α :=
  match xs.get? i with
  | some a => .ok a
  | none => .error .indexError

/-- The Chroma client's query result shape: `collection.query` returns a
result whose `"documents"` field holds one row per query text — the row for a
text is the ordered list of its top matches, and is an empty list when the
collection holds no match for it.  `app.py` always passes exactly one query
text (`query_texts=[q]`, line 12), so the field is `[topDocs]`; the double
subscription `[0][0]` on line 15 selects the first row and then its first
document. -/
def chromaDocumentsField (topDocs : List String) : List (List String) :=
  [topDocs]

/-- Line 15 of app.py:
`results["documents"][0][0] if results["documents"] else ""`.
Python truthiness of a list is non-emptiness, so the subscription path is
taken exactly when the outer `documents` list is non-empty. -/
def contextExpr (documents : List (List String)) : Except PyFault String :=
  if documents.isEmpty then .ok ""
  else do
    let row ← pyGet documents 0
    pyGet row 0

/-- The f-string on line 20 of app.py assembling the prompt from the context
and the question. -/
def promptTemplate (context q : String) : String :=
  "Context:\n" ++ context ++ "\n\nQuestion: " ++ q ++
    "\n\nAnswer clearly and concisely:using only the context in the context"

/-- The `/query` handler (app.py lines 9-23), parameterised by the two
collaborator behaviours: `sim st q n` is the Chroma similarity search (the
ordered top documents for query text `q` over collection `st`, or a fault),
and `gen` is the Ollama generation call (the completion for a request, or a
fault).  The handler prints the input, issues the search, prints the raw
result, evaluates the context expression, prints the context, sends the
generation request and returns `{"answer": ...}` (modelled as the answer
string).  It installs no exception handling: any fault surfaces in
`result`. -/
def query (sim : Store → String → Nat → Except PyFault (List String))
    (gen : GenRequest → Except PyFault String)
    (st : Store) (q : String) : Outcome String :=
  let log0 := [LogEntry.receivedQuery q]
  let ops0 := [StoreOp.queryOp [q] 1]
  match sim st q 1 with
  | .error f => ⟨.error f, st, ops0, log0, []⟩
  | .ok topDocs =>
    let documents := chromaDocumentsField topDocs
    let log1 := log0 ++ [LogEntry.chromaResults documents]
    match contextExpr documents with
    | .error f => ⟨.error f, st, ops0, log1, []⟩
    | .ok context =>
      let log2 := log1 ++ [LogEntry.contextPassed context]
      let req : GenRequest := ⟨"tinyllama", promptTemplate context q⟩
      match gen req with
      | .error f => ⟨.error f, st, ops0, log2, [req]⟩
      | .ok answer => ⟨.ok answer, st, ops0, log2, [req]⟩

/-- The response envelope of the `/add` handler: a status flag, a message,
and on success the generated identifier (absent from the error envelope). -/
structure AddResponse where
  status : String
  message : String
  id : Option String
  deriving DecidableEq, Repr

/-- The `/add` handler (app.py lines 25-45), parameterised by the two steps
inside its `try` block that can fault: `genId` is the identifier generation
`str(uuid.uuid4())` (an opaque collaborator draw), and `insert st i t` is
`collection.add(documents=[t], ids=[i])`, returning the updated collection.
Both faults are caught by the blanket `except Exception as e` and converted
to the error envelope `{"status": "error", "message": str(e)}`; on success
the handler returns
`{"status": "success", "message": "Content added to knowledge base", "id": doc_id}`. -/
def add_knowledge (genId : Except PyFault String)
    (insert : Store → String → String → Except PyFault Store)
    (st : Store) (text : String) : Outcome AddResponse :=
  match genId with
  | .error e => ⟨.ok ⟨"error", faultMessage e, none⟩, st, [], [], []⟩
  | .ok doc_id =>
    match insert st doc_id text with
    | .error e =>
      ⟨.ok ⟨"error", faultMessage e, none⟩, st,
        [StoreOp.addOp [text] [doc_id]], [], []⟩
    | .ok st2 =>
      ⟨.ok ⟨"success", "Content added to knowledge base", some doc_id⟩, st2,
        [StoreOp.addOp [text] [doc_id]], [], []⟩

/-- The Chroma collection's own insert behaviour: `collection.add` appends the
`(id, document)` pair to the collection and does not fault. -/
def chromaInsert (st : Store) (id text : String) : Except PyFault Store :=
  .ok (st ++ [(id, text)])

/-- `sub` occurs verbatim inside `s`: `s` splits as `pre ++ sub ++ post`. -/
def containsVerbatim (s sub : String) : Prop :=
  ∃ pre post, s = pre ++ sub ++ post

theorem string_append_assoc (a b c : String) :
    a ++ b ++ c = a ++ (b ++ c) := by
  apply String.ext
  simp [String.data_append]

/-- The dead branch of line 15: the string `""` would be the context only if
the outer `documents` list itself were empty, which the Chroma result shape
for one query text never produces. -/
theorem contextExpr_nil : contextExpr [] = .ok "" := rfl

/-- An empty similarity-search result reaches the handler as the one-row
field `[[]]`, whose context expression raises `IndexError`. -/
theorem contextExpr_empty_row :
    contextExpr (chromaDocumentsField []) = .error .indexError := rfl

/-- A non-empty search result yields its first document as context. -/
theorem contextExpr_cons (d : String) (rest : List String) :
    contextExpr (chromaDocumentsField (d :: rest)) = .ok d := rfl

/-- Claim C1: the claim states that an empty similarity-search result gives
the empty string as context and generation is still invoked.  On the code
this fails: with no matching documents the Chroma result row is `[[]]`, the
truthiness test on line 15 passes (the outer list is non-empty), and
`results["documents"][0][0]` raises `IndexError` before any context is
assembled — the generation collaborator is never invoked.  This theorem
evaluates the handler at that failing input. -/
theorem query_empty_retrieval_raises_index_error :
    ((query (fun _ _ _ => .ok []) (fun _ => .ok "an answer")
        [] "What color is the sky?").result = .error .indexError)
    ∧ ((query (fun _ _ _ => .ok []) (fun _ => .ok "an answer")
        [] "What color is the sky?").genCalls = [])
    ∧ ((query (fun _ _ _ => .ok []) (fun _ => .ok "an answer")
        [] "What color is the sky?").log
          = [.receivedQuery "What color is the sky?", .chromaResults [[]]]) :=
  ⟨rfl, rfl, rfl⟩

/-- Claim C2: for a non-empty question whose similarity search returns at
least one document, the handler sends exactly one generation request, with
model `"tinyllama"`, whose prompt contains the first returned document
verbatim and the question verbatim. -/
theorem query_generates_once_with_doc_and_question
    (sim : Store → String → Nat → Except PyFault (List String))
    (gen : GenRequest → Except PyFault String)
    (st : Store) (q d : String) (rest : List String)
    (_hq : q ≠ "") (hsim : sim st q 1 = .ok (d :: rest)) :
    (query sim gen st q).genCalls = [⟨"tinyllama", promptTemplate d q⟩]
    ∧ containsVerbatim (promptTemplate d q) d
    ∧ containsVerbatim (promptTemplate d q) q := by
  refine ⟨?_, ?_, ?_⟩
  · unfold query
    rw [hsim]
    show (match gen ⟨"tinyllama", promptTemplate d q⟩ with
      | .error f => _ | .ok answer => _ : Outcome String).genCalls = _
    cases gen ⟨"tinyllama", promptTemplate d q⟩ <;> rfl
  · refine ⟨"Context:\n",
      "\n\nQuestion: " ++ q ++
        "\n\nAnswer clearly and concisely:using only the context in the context",
      ?_⟩
    apply String.ext
    simp [promptTemplate, String.data_append]
  · refine ⟨"Context:\n" ++ d ++ "\n\nQuestion: ",
      "\n\nAnswer clearly and concisely:using only the context in the context",
      ?_⟩
    apply String.ext
    simp [promptTemplate, String.data_append]

/-- Witness for C2 at a concrete question and document. -/
theorem query_generates_once_witness :
    (query (fun _ _ _ => .ok ["The sky is blue."]) (fun _ => .ok "blue")
        [] "What color is the sky?").genCalls
      = [⟨"tinyllama", promptTemplate "The sky is blue." "What color is the sky?"⟩]
    ∧ containsVerbatim
        (promptTemplate "The sky is blue." "What color is the sky?") "The sky is blue."
    ∧ containsVerbatim
        (promptTemplate "The sky is blue." "What color is the sky?") "What color is the sky?" :=
  query_generates_once_with_doc_and_question
    (fun _ _ _ => .ok ["The sky is blue."]) (fun _ => .ok "blue")
    [] "What color is the sky?" "The sky is blue." [] (by decide) rfl

/-- Claim C3: whatever faults the identifier-generation or insertion step
raises, the add handler returns an envelope (it never propagates a fault),
and on either fault the envelope carries status `"error"` and the fault's
description string as its message. -/
theorem add_knowledge_converts_faults
    (genId : Except PyFault String)
    (insert : Store → String → String → Except PyFault Store)
    (st : Store) (text : String) :
    (∃ r, (add_knowledge genId insert st text).result = .ok r)
    ∧ (∀ f, genId = .error f →
        (add_knowledge genId insert st text).result
          = .ok ⟨"error", faultMessage f, none⟩)
    ∧ (∀ i f, genId = .ok i → insert st i text = .error f →
        (add_knowledge genId insert st text).result
          = .ok ⟨"error", faultMessage f, none⟩) := by
  refine ⟨?_, ?_, ?_⟩
  · cases genId with
    | error e => exact ⟨⟨"error", faultMessage e, none⟩, rfl⟩
    | ok i =>
      cases h : insert st i text with
      | error e =>
        exact ⟨⟨"error", faultMessage e, none⟩, by simp [add_knowledge, h]⟩
      | ok st2 =>
        exact ⟨⟨"success", "Content added to knowledge base", some i⟩,
          by simp [add_knowledge, h]⟩
  · rintro f rfl
    rfl
  · rintro i f rfl hins
    simp [add_knowledge, hins]

/-- Witness for C3: a fault from the insertion step is converted into the
error envelope carrying its description. -/
theorem add_knowledge_converts_faults_witness :
    (add_knowledge (.ok "id-7") (fun _ _ _ => .error (.collab "chroma is down"))
        [] "hello").result = .ok ⟨"error", "chroma is down", none⟩ :=
  (add_knowledge_converts_faults (.ok "id-7")
      (fun _ _ _ => .error (.collab "chroma is down")) [] "hello").2.2
    "id-7" (.collab "chroma is down") rfl rfl

/-- Claim C4: when insertion succeeds, the add handler issues exactly one
insert of the (identifier, text) pair, leaves the collection as the insert
left it, and returns the success envelope whose id field is exactly the
generated identifier; with the Chroma insert behaviour the collection gains
exactly that pair. -/
theorem add_knowledge_success_envelope
    (insert : Store → String → String → Except PyFault Store)
    (st st2 : Store) (i text : String)
    (hins : insert st i text = .ok st2) :
    (add_knowledge (.ok i) insert st text).result
        = .ok ⟨"success", "Content added to knowledge base", some i⟩
    ∧ (add_knowledge (.ok i) insert st text).store = st2
    ∧ (add_knowledge (.ok i) insert st text).ops = [StoreOp.addOp [text] [i]]
    ∧ (add_knowledge (.ok i) chromaInsert st text).store = st ++ [(i, text)] := by
  refine ⟨?_, ?_, ?_, rfl⟩ <;> simp [add_knowledge, hins]

/-- Witness for C4 at a concrete text and identifier. -/
theorem add_knowledge_success_envelope_witness :
    (add_knowledge (.ok "id-1") chromaInsert [] "The sky is blue.").result
      = .ok ⟨"success", "Content added to knowledge base", some "id-1"⟩ :=
  (add_knowledge_success_envelope chromaInsert [] [("id-1", "The sky is blue.")]
      "id-1" "The sky is blue." rfl).1

/-- Claim C5: two consecutive successful add calls with the identical text,
drawing their identifiers from the random-identifier collaborator (modelled
as an oracle sequence of draws whose consecutive outputs are distinct — the
collision probability the specification treats as negligible), return two
distinct identifiers. -/
theorem add_twice_distinct_ids
    (ids : Nat → String) (st : Store) (text : String)
    (hfresh : ids 0 ≠ ids 1) :
    ∃ r1 r2,
      (add_knowledge (.ok (ids 0)) chromaInsert st text).result = .ok r1
      ∧ (add_knowledge (.ok (ids 1)) chromaInsert
          (add_knowledge (.ok (ids 0)) chromaInsert st text).store text).result = .ok r2
      ∧ r1.status = "success" ∧ r2.status = "success"
      ∧ r1.id = some (ids 0) ∧ r2.id = some (ids 1)
      ∧ r1.id ≠ r2.id := by
  refine ⟨_, _, rfl, rfl, rfl, rfl, rfl, rfl, ?_⟩
  simpa using hfresh

/-- Witness for C5: concrete distinct draws on the identical text. -/
theorem add_twice_distinct_ids_witness :
    ∃ r1 r2,
      (add_knowledge (.ok "id-a") chromaInsert [] "same text").result = .ok r1
      ∧ (add_knowledge (.ok "id-b") chromaInsert
          (add_knowledge (.ok "id-a") chromaInsert [] "same text").store
          "same text").result = .ok r2
      ∧ r1.status = "success" ∧ r2.status = "success"
      ∧ r1.id = some "id-a" ∧ r2.id = some "id-b"
      ∧ r1.id ≠ r2.id :=
  add_twice_distinct_ids (fun n => if n = 0 then "id-a" else "id-b")
    [] "same text" (by decide)

/-- Claim C6: insert-then-query round trip.  After a successful add of a
text, a query whose similarity search ranks that text first (the top-match
hypothesis) logs exactly that text as context and sends the generation
collaborator the prompt built from it. -/
theorem add_then_query_roundtrip
    (sim : Store → String → Nat → Except PyFault (List String))
    (gen : GenRequest → Except PyFault String)
    (st : Store) (text i q : String) (rest : List String)
    (htop : sim (add_knowledge (.ok i) chromaInsert st text).store q 1
      = .ok (text :: rest)) :
    (i, text) ∈ (add_knowledge (.ok i) chromaInsert st text).store
    ∧ LogEntry.contextPassed text ∈
        (query sim gen (add_knowledge (.ok i) chromaInsert st text).store q).log
    ∧ (query sim gen (add_knowledge (.ok i) chromaInsert st text).store q).genCalls
        = [⟨"tinyllama", promptTemplate text q⟩] := by
  refine ⟨by simp [add_knowledge, chromaInsert], ?_, ?_⟩ <;>
    · cases hg : gen ⟨"tinyllama", promptTemplate text q⟩ <;>
        simp [query, htop, contextExpr_cons, hg]

/-- Witness for C6: a concrete insert followed by a query whose top match is
the inserted text. -/
theorem add_then_query_roundtrip_witness :
    ("doc-1", "The sky is blue.") ∈
        (add_knowledge (.ok "doc-1") chromaInsert [] "The sky is blue.").store
    ∧ LogEntry.contextPassed "The sky is blue." ∈
        (query (fun _ _ _ => .ok ["The sky is blue."]) (fun _ => .ok "It is blue.")
          (add_knowledge (.ok "doc-1") chromaInsert [] "The sky is blue.").store
          "What color is the sky?").log
    ∧ (query (fun _ _ _ => .ok ["The sky is blue."]) (fun _ => .ok "It is blue.")
          (add_knowledge (.ok "doc-1") chromaInsert [] "The sky is blue.").store
          "What color is the sky?").genCalls
        = [⟨"tinyllama", promptTemplate "The sky is blue." "What color is the sky?"⟩] :=
  add_then_query_roundtrip (fun _ _ _ => .ok ["The sky is blue."])
    (fun _ => .ok "It is blue.") [] "The sky is blue." "doc-1"
    "What color is the sky?" [] rfl

/-- Claim C7: the query handler installs no exception handling: a fault from
the similarity-search call, and a fault from the generation call, each
surfaces unchanged as the handler's outcome, handed to the caller (the
hosting framework) rather than swallowed or escalated — the handler has no
termination effect at all, its outcome is always a value or this propagated
fault. -/
theorem query_faults_propagate
    (sim : Store → String → Nat → Except PyFault (List String))
    (gen : GenRequest → Except PyFault String)
    (st : Store) (q : String) (f : PyFault) :
    (sim st q 1 = .error f → (query sim gen st q).result = .error f)
    ∧ (∀ docs context, sim st q 1 = .ok docs →
        contextExpr (chromaDocumentsField docs) = .ok context →
        gen ⟨"tinyllama", promptTemplate context q⟩ = .error f →
        (query sim gen st q).result = .error f) := by
  constructor
  · intro hsim
    simp [query, hsim]
  · intro docs context hsim hctx hgen
    simp [query, hsim, hctx, hgen]

/-- Witness for C7: a concrete generation fault propagates out of the
handler. -/
theorem query_faults_propagate_witness :
    (query (fun _ _ _ => .ok ["a doc"])
        (fun _ => .error (.collab "model not found")) [] "hi").result
      = .error (.collab "model not found") :=
  (query_faults_propagate (fun _ _ _ => .ok ["a doc"])
      (fun _ => .error (.collab "model not found")) [] "hi"
      (.collab "model not found")).2
    ["a doc"] "a doc" rfl rfl rfl

/-- Claim C8: the query handler never mutates the collection — its only
collection operation is the single similarity search, and its only other
effect is the diagnostic log, which is always a prefix of the three lines
input query, raw retrieval result, assembled context. -/
theorem query_leaves_store_unchanged
    (sim : Store → String → Nat → Except PyFault (List String))
    (gen : GenRequest → Except PyFault String)
    (st : Store) (q : String) :
    (query sim gen st q).store = st
    ∧ (query sim gen st q).ops = [StoreOp.queryOp [q] 1]
    ∧ ∃ ds c, (query sim gen st q).log <+:
        [LogEntry.receivedQuery q, LogEntry.chromaResults ds,
          LogEntry.contextPassed c] := by
  cases hsim : sim st q 1 with
  | error f =>
    refine ⟨?_, ?_, [[]], "", ?_⟩ <;> simp [query, hsim]
  | ok docs =>
    cases hctx : contextExpr (chromaDocumentsField docs) with
    | error f =>
      refine ⟨?_, ?_, chromaDocumentsField docs, "", ?_⟩ <;>
        simp [query, hsim, hctx]
    | ok context =>
      cases hg : gen ⟨"tinyllama", promptTemplate context q⟩ with
      | error f =>
        refine ⟨?_, ?_, chromaDocumentsField docs, context, ?_⟩ <;>
          simp [query, hsim, hctx, hg]
      | ok answer =>
        refine ⟨?_, ?_, chromaDocumentsField docs, context, ?_⟩ <;>
          simp [query, hsim, hctx, hg]

/-- Claim C9: the claim states the generation collaborator is always invoked
whatever the retrieval result.  On the code this fails for an empty
retrieval: the `IndexError` of line 15 aborts the handler before the
generation call, so no generation request is sent (and no fixed answer is
returned either — the outcome is the propagated fault).  This theorem
evaluates the handler at that failing input, next to a non-empty retrieval
on the same collection where the generation call does happen. -/
theorem query_gen_call_skipped_on_empty_retrieval :
    ((query (fun _ _ _ => .ok []) (fun _ => .ok "a fixed answer")
        [("id-1", "some doc")] "any question?").genCalls = [])
    ∧ ((query (fun _ _ _ => .ok []) (fun _ => .ok "a fixed answer")
        [("id-1", "some doc")] "any question?").result = .error .indexError)
    ∧ ((query (fun _ _ _ => .ok ["some doc"]) (fun _ => .ok "a fixed answer")
        [("id-1", "some doc")] "any question?").genCalls
      = [⟨"tinyllama", promptTemplate "some doc" "any question?"⟩]) :=
  ⟨rfl, rfl, rfl⟩

/-- Claim C10: when identifier generation faults, the add handler answers
with the error envelope having issued no collection operation at all: the
collection is unchanged and no insert was attempted. -/
theorem add_knowledge_id_fault_no_insert
    (insert : Store → String → String → Except PyFault Store)
    (st : Store) (text : String) (f : PyFault) :
    (add_knowledge (.error f) insert st text).result
        = .ok ⟨"error", faultMessage f, none⟩
    ∧ (add_knowledge (.error f) insert st text).store = st
    ∧ (add_knowledge (.error f) insert st text).ops = [] :=
  ⟨rfl, rfl, rfl⟩

end RagApi
